import Mathlib

/-!
Verification of the serverless configuration-file security scanner
(`lambda_function.py`) against its natural-language specification.

The program is embedded shallowly:

* JSON values (the parsed content of an uploaded configuration file) are the
  inductive type `JVal`; a configuration record — a Python `dict` produced by
  `json.loads` — is an association list `Config`.
* Python's dynamically-typed operations that the scanner uses (`x in y`,
  `y[k]`, `str(x)`, `==` against a boolean, `.endswith`) are modelled as
  functions on `JVal`; operations that can raise a Python exception return
  `Except String`, the error string standing for the exception text.
* `scan_for_issues`, `send_security_alert` and `lambda_handler` are direct
  transcriptions of the source functions.  Shadowed `let` bindings stand for
  the Python code's successive mutations of the `vulnerabilities` list.
* Numbers are modelled as `Int` (non-integral JSON numbers do not occur in
  any behaviour the claims touch).  Python's `repr` of strings inside
  containers is modelled without escape sequences; escaping never affects
  whether the character `/` occurs, which is all the scanner inspects.
-/

/-- A parsed JSON value, as produced by `json.loads`. -/
inductive JVal where
  | null : JVal
  | bool : Bool → JVal
  | int : Int → JVal
  | str : String → JVal
  | arr : List JVal → JVal
  | obj : List (String × JVal) → JVal

/-- A configuration record: a Python dict with string keys (spec §3). -/
abbrev Config := List (String × JVal)

/-- Python `repr` of a value.  String escaping is simplified (quotes are kept,
escape sequences omitted); this cannot create or destroy an occurrence of
`/`, the only character the scanner looks for. -/
def pyRepr : JVal → String
  | JVal.null => "None"
  | JVal.bool true => "True"
  | JVal.bool false => "False"
  | JVal.int n => toString n
  | JVal.str s => "\x27" ++ s ++ "\x27"
  | JVal.arr xs => "[" ++ String.intercalate ", " (xs.attach.map (fun v => pyRepr v.1)) ++ "]"
  | JVal.obj kvs => "\x7b" ++
      String.intercalate ", "
        (kvs.attach.map (fun kv => "\x27" ++ kv.1.1 ++ "\x27: " ++ pyRepr kv.1.2)) ++ "\x7d"
decreasing_by
  · have h := List.sizeOf_lt_of_mem v.2
    simp only [JVal.arr.sizeOf_spec]
    omega
  · obtain ⟨⟨k, w⟩, hm⟩ := kv
    have h := List.sizeOf_lt_of_mem hm
    simp only [JVal.obj.sizeOf_spec, Prod.mk.sizeOf_spec] at h ⊢
    omega

/-- Python `str` of a value (`str()` of a string is the string itself;
containers use `repr` of their elements). -/
def pyStr : JVal → String
  | JVal.str s => s
  | v => pyRepr v

/-- Python `==` comparison of an optional value against a `bool`, as in
`data.get(k) == False`.  Python's `bool` is a subtype of `int`, so a number
equal to 0 compares equal to `False` and a number equal to 1 to `True`;
no other value compares equal to a boolean. -/
def pyEqBool : Option JVal → Bool → Bool
  | some (JVal.bool b), c => b == c
  | some (JVal.int n), c => n == (if c then (1 : Int) else 0)
  | _, _ => false

/-- Whether the character `c` occurs in `s` (Python `c in s` for a
single-character needle, as in `'/' in str(value)`). -/
def strContainsChar (s : String) (c : Char) : Bool :=
  s.data.any (fun x => x == c)

/-- Whether `pat` occurs as a contiguous sublist of `l`. -/
def subListAt (pat : List Char) : List Char → Bool
  | [] => pat.isPrefixOf []
  | c :: cs => pat.isPrefixOf (c :: cs) || subListAt pat cs

/-- Whether `pat` occurs as a substring of `s` (Python `pat in s` on strings). -/
def strContainsSub (s pat : String) : Bool :=
  subListAt pat.data s.data

/-- Python `s.endswith(suffix)` on strings. -/
def strEndsWith (s suffix : String) : Bool :=
  suffix.data.isSuffixOf s.data

/-- Python membership test `k in v` for a string `k`: key lookup on a dict,
substring test on a string, element-equality search on a list, and a
`TypeError` on non-container values. -/
def pyContains (v : JVal) (k : String) : Except String Bool :=
  match v with
  | JVal.obj kvs => Except.ok (kvs.any (fun kv => kv.1 == k))
  | JVal.str s => Except.ok (strContainsSub s k)
  | JVal.arr xs => Except.ok (xs.any (fun x => match x with
      | JVal.str s => s == k
      | _ => false))
  | JVal.int _ => Except.error "argument of type \x27int\x27 is not iterable"
  | JVal.bool _ => Except.error "argument of type \x27bool\x27 is not iterable"
  | JVal.null => Except.error "argument of type \x27NoneType\x27 is not iterable"

/-- Python subscript `v[k]` for a string key `k`: dict lookup (raising
`KeyError` when absent), `TypeError` on any other value. -/
def pyGetItem (v : JVal) (k : String) : Except String JVal :=
  match v with
  | JVal.obj kvs =>
      match kvs.lookup k with
      | some w => Except.ok w
      | none => Except.error ("KeyError: \x27" ++ k ++ "\x27")
  | JVal.str _ => Except.error "string indices must be integers"
  | JVal.arr _ => Except.error "list indices must be integers or slices, not str"
  | _ => Except.error "object is not subscriptable"

/-- Python subscript `v[i]` for a natural-number index. -/
def pyIndexNat (v : JVal) (i : Nat) : Except String JVal :=
  match v with
  | JVal.arr xs =>
      match xs.get? i with
      | some w => Except.ok w
      | none => Except.error "IndexError: list index out of range"
  | JVal.str s =>
      match s.toList.get? i with
      | some c => Except.ok (JVal.str (String.singleton c))
      | none => Except.error "IndexError: string index out of range"
  | JVal.obj _ => Except.error ("KeyError: " ++ toString i)
  | _ => Except.error "object is not subscriptable"

/-- Python `v.endswith(suffix)`: defined on strings, `AttributeError`
otherwise. -/
def pyEndsWith (v : JVal) (suffix : String) : Except String Bool :=
  match v with
  | JVal.str s => Except.ok (strEndsWith s suffix)
  | _ => Except.error "object has no attribute \x27endswith\x27"

/-- One detected rule violation (spec §3's Finding record). -/
structure Finding where
  type : String
  severity : String
  field : String
  value : String
  recommendation : String
deriving DecidableEq, Repr

/-- The finding appended by the SSL rule (lines 22–28 of the source). -/
def sslDisabledFinding : Finding :=
  ⟨"ssl_disabled", "HIGH", "ssl_enabled", "false",
    "Enable SSL for encrypted connections"⟩

/-- The finding appended by the debug-mode rule (lines 33–39). -/
def debugModeEnabledFinding : Finding :=
  ⟨"debug_mode_enabled", "MEDIUM", "debug_mode", "true",
    "Disable debug mode in production"⟩

/-- The finding appended by the hardcoded-password rule (lines 48–54). -/
def hardcodedPasswordFinding : Finding :=
  ⟨"hardcoded_password", "CRITICAL", "database.password", "[REDACTED]",
    "Use AWS Parameter Store or Secrets Manager"⟩

/-- The finding appended by the hardcoded-API-key rule (lines 58–64). -/
def hardcodedApiKeyFinding : Finding :=
  ⟨"hardcoded_api_key", "HIGH", "api_key", "[REDACTED]",
    "Use AWS Parameter Store or Secrets Manager"⟩

/-- The finding appended by the file-size rule (lines 69–75). -/
def suspiciousFileSizeFinding (file_size : Int) : Finding :=
  ⟨"suspicious_file_size", "MEDIUM", "file_size", toString file_size ++ " bytes",
    "Review why configuration file is unusually large"⟩

/-- `scan_for_issues(data, file_size=None)` from the source, line for line.
`data.get(k)` is `data.lookup k`; `'database' in data and 'password' in
data['database']` is the match on `data.lookup "database"` followed by
`pyContains`; the Python `and` short-circuits, so the membership test (which
may raise a `TypeError` on a non-container) only runs when the key is
present.  `if file_size and file_size > 10 * 1024 * 1024` tests truthiness
(`file_size` not `None` and nonzero) before the comparison. -/
def scan_for_issues (data : Config) (file_size : Option Int) :
    Except String (List Finding) := do
  let vulnerabilities : List Finding := []
  -- Check for SSL disabled
  let vulnerabilities :=
    if pyEqBool (data.lookup "ssl_enabled") false then
      vulnerabilities ++ [sslDisabledFinding]
    else vulnerabilities
  -- Check for debug mode enabled
  let vulnerabilities :=
    if pyEqBool (data.lookup "debug_mode") true then
      vulnerabilities ++ [debugModeEnabledFinding]
    else vulnerabilities
  -- Check for hardcoded password
  let vulnerabilities ← (match data.lookup "database" with
    | none => pure vulnerabilities
    | some db => do
        let hasPassword ← pyContains db "password"
        if hasPassword then
          let pw ← pyGetItem db "password"
          if !strContainsChar (pyStr pw) '/' then
            pure (vulnerabilities ++ [hardcodedPasswordFinding])
          else pure vulnerabilities
        else pure vulnerabilities)
  -- Check for hardcoded API key using same logic as password
  let vulnerabilities :=
    match data.lookup "api_key" with
    | some ak =>
        if !strContainsChar (pyStr ak) '/' then
          vulnerabilities ++ [hardcodedApiKeyFinding]
        else vulnerabilities
    | none => vulnerabilities
  -- Check for suspiciously large file size
  let vulnerabilities :=
    match file_size with
    | some n =>
        if n ≠ 0 ∧ n > 10 * 1024 * 1024 then
          vulnerabilities ++ [suspiciousFileSizeFinding n]
        else vulnerabilities
    | none => vulnerabilities
  return vulnerabilities

/-- The `severity_summary` mapping of an alert (source lines 106–112).  The
three severity levels are record fields, so every level is present in every
summary — a level with no findings carries the count 0. -/
structure SeveritySummary where
  CRITICAL : Nat
  HIGH : Nat
  MEDIUM : Nat
deriving DecidableEq, Repr

/-- The alert record built at source lines 95–113.  The timestamp is captured
from the clock at formatting time; the model takes it as the explicit
argument `now`. -/
structure Alert where
  alert_type : String
  timestamp : String
  file_scanned : String
  vulnerability_count : Nat
  vulnerabilities : List Finding
  severity_summary : SeveritySummary
deriving DecidableEq, Repr

/-- `send_security_alert(bucket_name, object_key, vulnerabilities)` from the
source.  Python's `if not vulnerabilities: return` returns `None` on an
empty list, modelled as `Option.none`; otherwise the structured alert record
is built and returned (the `print` calls are logging glue with no effect on
the returned value). -/
def send_security_alert (bucket_name object_key : String)
    (vulnerabilities : List Finding) (now : String) : Option Alert :=
  if vulnerabilities.isEmpty then
    none
  else
    some
      { alert_type := "SECURITY_SCAN_ALERT"
        timestamp := now
        file_scanned := "s3://" ++ bucket_name ++ "/" ++ object_key
        vulnerability_count := vulnerabilities.length
        vulnerabilities := vulnerabilities
        severity_summary :=
          { CRITICAL := (vulnerabilities.filter
              (fun v => v.severity == "CRITICAL")).length
            HIGH := (vulnerabilities.filter
              (fun v => v.severity == "HIGH")).length
            MEDIUM := (vulnerabilities.filter
              (fun v => v.severity == "MEDIUM")).length } }

/-- The dict returned by `lambda_handler`: a status code and a body string.
`json.dumps` of the body string (pure transport serialization, quoting the
string) is omitted from the model. -/
structure LambdaResponse where
  statusCode : Nat
  body : String
deriving DecidableEq, Repr

/-- `lambda_handler(event, context)` from the source.  The external
collaborators are passed in as functions (spec §9 prescribes modelling them
as injected dependencies): `store bucket key` models
`s3_client.get_object` returning the decoded body and `ContentLength`, with
`Except.error` standing for any raised exception; `jloads` models
`json.loads` together with the dict-shaped use of its result (a parse
failure, or content whose toplevel is not an object, is an error — either
way the Python exception is caught by the same `except` block); `now` is the
clock value used for the alert timestamp.  The event subscripts
(`event['Records'][0]['s3']['bucket']['name']`, …) and
`object_key.endswith('.json')` follow Python semantics and may raise; the
surrounding `try`/`except Exception` is the final `match`, which converts
any error text `e` into a 500 response with body `f'Error: {str(e)}'`. -/
def lambda_handler (store : JVal → JVal → Except String (String × Int))
    (jloads : String → Except String Config) (now : String) (event : JVal) :
    LambdaResponse :=
  let result : Except String LambdaResponse := do
    let records ← pyGetItem event "Records"
    let record0 ← pyIndexNat records 0
    let s3val ← pyGetItem record0 "s3"
    let bucketval ← pyGetItem s3val "bucket"
    let bucket_name ← pyGetItem bucketval "name"
    let objectval ← pyGetItem s3val "object"
    let object_key ← pyGetItem objectval "key"
    let isJson ← pyEndsWith object_key ".json"
    if !isJson then
      return ⟨200, "Non-JSON file skipped"⟩
    let content ← store bucket_name object_key
    let file_content := content.1
    let file_size := content.2
    let data ← jloads file_content
    let vulnerabilities ← scan_for_issues data (some file_size)
    let _alert := send_security_alert (pyStr bucket_name) (pyStr object_key)
      vulnerabilities now
    return ⟨200, "File processed successfully. Found " ++
      toString vulnerabilities.length ++ " vulnerabilities."⟩
  match result with
  | Except.ok resp => resp
  | Except.error e => ⟨500, "Error: " ++ e⟩

/-! ### Per-rule views of the evaluator

Each rule of `scan_for_issues` reads a disjoint part of the input.  The
following definitions isolate the five rules; the decomposition lemma below
proves that `scan_for_issues` is exactly their concatenation, which is what
the spec's rule-order and rule-independence statements quantify over. -/

/-- Rule 1 (source lines 21–28): the SSL check in isolation. -/
def sslRule (data : Config) : List Finding :=
  if pyEqBool (data.lookup "ssl_enabled") false then [sslDisabledFinding] else []

/-- Rule 2 (source lines 32–39): the debug-mode check in isolation. -/
def debugRule (data : Config) : List Finding :=
  if pyEqBool (data.lookup "debug_mode") true then [debugModeEnabledFinding] else []

/-- Rule 3 (source lines 44–54): the hardcoded-password check in isolation;
the only rule that can raise. -/
def passwordRule (data : Config) : Except String (List Finding) :=
  match data.lookup "database" with
  | none => Except.ok []
  | some db => do
      let hasPassword ← pyContains db "password"
      if hasPassword then
        let pw ← pyGetItem db "password"
        if !strContainsChar (pyStr pw) '/' then
          pure [hardcodedPasswordFinding]
        else pure []
      else pure []

/-- Rule 4 (source lines 57–64): the hardcoded-API-key check in isolation. -/
def apiKeyRule (data : Config) : List Finding :=
  match data.lookup "api_key" with
  | some ak =>
      if !strContainsChar (pyStr ak) '/' then [hardcodedApiKeyFinding] else []
  | none => []

/-- Rule 5 (source lines 68–75): the file-size check in isolation. -/
def fileSizeRule (file_size : Option Int) : List Finding :=
  match file_size with
  | some n =>
      if n ≠ 0 ∧ n > 10 * 1024 * 1024 then [suspiciousFileSizeFinding n] else []
  | none => []

/-- The `database`-field shapes on which the Python membership test and
subscript in the password rule cannot raise: absent, a mapping, a string
without the substring `password`, or a list without the string element
`"password"`. -/
def databaseAccessSafe (data : Config) : Bool :=
  match data.lookup "database" with
  | none => true
  | some (JVal.obj _) => true
  | some (JVal.str s) => !strContainsSub s "password"
  | some (JVal.arr xs) => !(xs.any (fun x => match x with
      | JVal.str s => s == "password"
      | _ => false))
  | some _ => false

/-- The `database` field is absent or a mapping (the spec's notion of a
well-formed nested structure). -/
def databaseWellFormed (data : Config) : Bool :=
  match data.lookup "database" with
  | none => true
  | some (JVal.obj _) => true
  | some _ => false

/-- The `database.password` entry of a record, as an optional value: present
exactly when `database` is present, is a mapping, and has a `password` key. -/
def dbPassword (data : Config) : Option JVal :=
  match data.lookup "database" with
  | some (JVal.obj kvs) => kvs.lookup "password"
  | _ => none

/-- Whether evaluation of a record returns normally (no Python exception). -/
def scanSucceeds (data : Config) (file_size : Option Int) : Bool :=
  match scan_for_issues data file_size with
  | Except.ok _ => true
  | Except.error _ => false

/-- `scan_for_issues` is the concatenation of its five rules, in declaration
order, threaded through the single fallible rule. -/
theorem scan_for_issues_decomp (data : Config) (fs : Option Int) :
    scan_for_issues data fs = (passwordRule data).map (fun pw =>
      sslRule data ++ debugRule data ++ pw ++ apiKeyRule data ++ fileSizeRule fs) := by
  cases hdb : data.lookup "database" with
  | none =>
      simp only [scan_for_issues, passwordRule, sslRule, debugRule, apiKeyRule,
        fileSizeRule, hdb, pure_bind, Except.map]
      cases data.lookup "api_key" <;> cases fs <;> (try split_ifs) <;>
        (try simp [pure, Except.pure]) <;> (try split_ifs) <;> simp
  | some db =>
      cases hc : pyContains db "password" with
      | error e =>
          simp only [scan_for_issues, passwordRule, sslRule, debugRule, apiKeyRule,
            fileSizeRule, hdb, hc, Except.map, Bind.bind, Except.bind]
      | ok hasPw =>
          cases hasPw with
          | false =>
              simp only [scan_for_issues, passwordRule, sslRule, debugRule,
                apiKeyRule, fileSizeRule, hdb, hc, Except.map, Bind.bind,
                Except.bind, Bool.false_eq_true, if_false, pure, Except.pure]
              cases data.lookup "api_key" <;> cases fs <;> (try split_ifs) <;>
                (try simp [pure, Except.pure]) <;> (try split_ifs) <;> simp
          | true =>
              cases hg : pyGetItem db "password" with
              | error e =>
                  simp only [scan_for_issues, passwordRule, sslRule, debugRule,
                    apiKeyRule, fileSizeRule, hdb, hc, hg, Except.map, Bind.bind,
                    Except.bind, if_true]
              | ok pw =>
                  simp only [scan_for_issues, passwordRule, sslRule, debugRule,
                    apiKeyRule, fileSizeRule, hdb, hc, hg, Except.map, Bind.bind,
                    Except.bind, if_true, pure, Except.pure]
                  cases data.lookup "api_key" <;> cases fs <;> (try split_ifs) <;>
                    (try simp [pure, Except.pure]) <;> (try split_ifs) <;> simp

/-- Reduction of monadic bind on a returned `Except` value. -/
theorem exceptBind_ok {α β : Type} (a : α) (f : α → Except String β) :
    (Except.ok a : Except String α) >>= f = f a := rfl

/-- Reduction of monadic bind on a raised `Except` value. -/
theorem exceptBind_error {α β : Type} (e : String) (f : α → Except String β) :
    (Except.error e : Except String α) >>= f = Except.error e := rfl

/-- Reduction of `Except.map` on a returned value. -/
theorem exceptMap_ok {α β : Type} (a : α) (f : α → β) :
    (Except.ok a : Except String α).map f = Except.ok (f a) := rfl

/-- Reduction of `Except.map` on a raised value. -/
theorem exceptMap_error {α β : Type} (e : String) (f : α → β) :
    (Except.error e : Except String α).map f = Except.error e := rfl

/-- A dict membership test succeeds exactly when a lookup for the same key
finds an entry. -/
theorem any_beq_eq_lookup_isSome (kvs : List (String × JVal)) (k : String) :
    kvs.any (fun kv => kv.1 == k) = (kvs.lookup k).isSome := by
  induction kvs with
  | nil => rfl
  | cons hd tl ih =>
      obtain ⟨a, b⟩ := hd
      simp only [List.any_cons, List.lookup]
      by_cases h : k = a
      · subst h
        simp
      · have hk : (k == a) = false := by simp [h]
        have ha : (a == k) = false := by simp [Ne.symm h]
        simp [hk, ha, ih]

/-- `scan_for_issues` returns a list exactly when the password rule does, and
then the list is the concatenation of the five rules in declaration order. -/
theorem scan_for_issues_ok_iff (data : Config) (fs : Option Int)
    (l : List Finding) :
    scan_for_issues data fs = Except.ok l ↔
      ∃ pw, passwordRule data = Except.ok pw ∧
        l = sslRule data ++ debugRule data ++ pw ++ apiKeyRule data ++
          fileSizeRule fs := by
  rw [scan_for_issues_decomp]
  cases hp : passwordRule data with
  | error e => simp [exceptMap_error]
  | ok pw => simp [exceptMap_ok, eq_comm]

/-- The password rule returns either no finding or the single hardcoded
password finding. -/
theorem passwordRule_eq_nil_or_singleton (data : Config) (pw : List Finding)
    (h : passwordRule data = Except.ok pw) :
    pw = [] ∨ pw = [hardcodedPasswordFinding] := by
  cases hdb : data.lookup "database" with
  | none =>
      simp only [passwordRule, hdb, Except.ok.injEq] at h
      left
      simp [h]
  | some db =>
      cases hc : pyContains db "password" with
      | error e =>
          simp [passwordRule, hdb, hc, exceptBind_error] at h
      | ok hasPw =>
          cases hasPw with
          | false =>
              simp [passwordRule, hdb, hc, exceptBind_ok, pure, Except.pure] at h
              left
              simp [h]
          | true =>
              cases hg : pyGetItem db "password" with
              | error e =>
                  simp [passwordRule, hdb, hc, hg, exceptBind_ok,
                    exceptBind_error] at h
              | ok pwv =>
                  simp only [passwordRule, hdb, hc, hg, exceptBind_ok, if_true,
                    pure, Except.pure] at h
                  split at h <;> simp only [Except.ok.injEq] at h <;>
                    simp [h.symm]

/-- When the `database` field is absent or a mapping, the password rule never
raises and fires exactly on a `database.password` entry whose string form
has no `/`. -/
theorem passwordRule_of_wellFormed (data : Config)
    (h : databaseWellFormed data = true) :
    passwordRule data = Except.ok (match dbPassword data with
      | some pwv =>
          if !strContainsChar (pyStr pwv) '/' then [hardcodedPasswordFinding] else []
      | none => []) := by
  unfold databaseWellFormed at h
  cases hdb : data.lookup "database" with
  | none => simp [passwordRule, dbPassword, hdb]
  | some db =>
      rw [hdb] at h
      cases db with
      | obj kvs =>
          simp only [passwordRule, dbPassword, hdb, pyContains, exceptBind_ok,
            any_beq_eq_lookup_isSome]
          cases hl : kvs.lookup "password" with
          | none => simp [pure, Except.pure]
          | some pwv =>
              simp only [pyGetItem, hl, exceptBind_ok, Option.isSome_some,
                if_true]
              cases hcc : strContainsChar (pyStr pwv) '/' <;>
                simp [hcc, pure, Except.pure]
      | null => simp at h
      | bool b => simp at h
      | int n => simp at h
      | str s => simp at h
      | arr xs => simp at h

/-- The evaluator returns normally exactly on the `database` shapes collected
in `databaseAccessSafe`. -/
theorem scanSucceeds_eq_databaseAccessSafe (data : Config) (fs : Option Int) :
    scanSucceeds data fs = databaseAccessSafe data := by
  unfold scanSucceeds
  rw [scan_for_issues_decomp]
  cases hdb : data.lookup "database" with
  | none => simp [passwordRule, databaseAccessSafe, hdb, exceptMap_ok]
  | some db =>
      cases db with
      | obj kvs =>
          simp only [passwordRule, databaseAccessSafe, hdb, pyContains,
            exceptBind_ok, any_beq_eq_lookup_isSome]
          cases hl : kvs.lookup "password" with
          | none => simp [exceptMap_ok, pure, Except.pure]
          | some pwv =>
              simp only [Option.isSome_some, if_true, pyGetItem, hl,
                exceptBind_ok]
              cases hcc : strContainsChar (pyStr pwv) '/' <;>
                simp [hcc, pure, Except.pure, exceptMap_ok]
      | null => simp [passwordRule, databaseAccessSafe, hdb, pyContains,
          exceptBind_error, exceptMap_error]
      | bool b => simp [passwordRule, databaseAccessSafe, hdb, pyContains,
          exceptBind_error, exceptMap_error]
      | int n => simp [passwordRule, databaseAccessSafe, hdb, pyContains,
          exceptBind_error, exceptMap_error]
      | str s =>
          simp only [passwordRule, databaseAccessSafe, hdb, pyContains,
            exceptBind_ok]
          by_cases hs : strContainsSub s "password"
          · simp [hs, pyGetItem, exceptBind_error, exceptMap_error]
          · simp [hs, pure, Except.pure, exceptMap_ok]
      | arr xs =>
          simp only [passwordRule, databaseAccessSafe, hdb, pyContains,
            exceptBind_ok]
          by_cases hs : xs.any (fun x => match x with
            | JVal.str s => s == "password"
            | _ => false)
          · simp [hs, pyGetItem, exceptBind_error, exceptMap_error]
          · simp [hs, pure, Except.pure, exceptMap_ok]

/-! ### Claims -/

/-- Claim C1, counterexample: on the configuration record whose `database`
field is the number 5, `scan_for_issues` raises a `TypeError` (the Python
membership test `'password' in 5` is not defined) instead of skipping the
hardcoded-password rule, so the evaluator is not total on records with a
non-mapping `database` field. -/
theorem claim_C1_counterexample :
    scan_for_issues [("database", JVal.int 5)] none =
      Except.error "argument of type \x27int\x27 is not iterable" := rfl

/-- Claim C1 (amended): the rule evaluator returns normally exactly when the
`database` field is absent, a mapping, a string without the substring
`password`, or a list without the string element `"password"`; on any other
present `database` value (a number, boolean or null, or a string or list on
which the membership test for `password` succeeds) it raises a `TypeError`
rather than treating the hardcoded-password rule as absent. -/
theorem claim_C1_theorem (data : Config) (fs : Option Int) :
    scanSucceeds data fs = databaseAccessSafe data :=
  scanSucceeds_eq_databaseAccessSafe data fs

/-- Claim C2, counterexample: the record `{"ssl_enabled": 0}` produces an
`ssl_disabled` finding even though its value is the integer 0, not the
boolean false — Python's `0 == False` is true — contradicting the claim that
no value other than boolean false produces the finding. -/
theorem claim_C2_counterexample :
    scan_for_issues [("ssl_enabled", JVal.int 0)] none =
      Except.ok [sslDisabledFinding] ∧ JVal.int 0 ≠ JVal.bool false :=
  ⟨rfl, by simp⟩

/-- Claim C2 (amended): whenever evaluation returns a findings list, that
list contains an `ssl_disabled` finding if and only if `ssl_enabled` is
present with a value comparing equal to Python's `False` — the boolean false
or a number equal to 0 (so the integer 0 also triggers the rule, unlike the
claim's reading; strings such as `"false"` and null still do not) — and in
that case it contains exactly one such finding, whose severity is HIGH. -/
theorem claim_C2_theorem (data : Config) (fs : Option Int) (l : List Finding)
    (h : scan_for_issues data fs = Except.ok l) :
    l.filter (fun f => f.type == "ssl_disabled") =
      (if pyEqBool (data.lookup "ssl_enabled") false then [sslDisabledFinding]
       else []) ∧
    sslDisabledFinding.severity = "HIGH" := by
  obtain ⟨pw, hpw, hl⟩ := (scan_for_issues_ok_iff data fs l).mp h
  subst hl
  refine ⟨?_, rfl⟩
  rcases passwordRule_eq_nil_or_singleton data pw hpw with hp | hp <;>
    subst hp <;>
    cases hak : data.lookup "api_key" <;> cases fs <;>
    simp only [sslRule, debugRule, apiKeyRule, fileSizeRule, hak,
      List.filter_append] <;>
    (try split_ifs) <;>
    simp [sslDisabledFinding, debugModeEnabledFinding, hardcodedPasswordFinding,
      hardcodedApiKeyFinding, suspiciousFileSizeFinding]

/-- Claim C2 witness: on `{"ssl_enabled": false}` the amended statement is
established at a concrete input. -/
theorem claim_C2_witness :
    [sslDisabledFinding].filter (fun f => f.type == "ssl_disabled") =
      (if pyEqBool (List.lookup "ssl_enabled"
          [("ssl_enabled", JVal.bool false)]) false then [sslDisabledFinding]
       else []) ∧
    sslDisabledFinding.severity = "HIGH" :=
  claim_C2_theorem [("ssl_enabled", JVal.bool false)] none
    [sslDisabledFinding] rfl

/-- Claim C3 (confirmed): when `database` is a mapping with a `password`
entry, evaluation returns normally and produces a `hardcoded_password`
finding exactly when the string form of the password has no `/` — exactly
one, with severity CRITICAL and the redacted value; when `database` is
absent, no `hardcoded_password` finding is produced. -/
theorem claim_C3_theorem (data : Config) (fs : Option Int) :
    (∀ db pwv, data.lookup "database" = some (JVal.obj db) →
      db.lookup "password" = some pwv →
      ∃ l, scan_for_issues data fs = Except.ok l ∧
        l.filter (fun f => f.type == "hardcoded_password") =
          (if strContainsChar (pyStr pwv) '/' then []
           else [hardcodedPasswordFinding])) ∧
    (∀ l, data.lookup "database" = none →
      scan_for_issues data fs = Except.ok l →
      l.filter (fun f => f.type == "hardcoded_password") = []) ∧
    hardcodedPasswordFinding.severity = "CRITICAL" ∧
    hardcodedPasswordFinding.value = "[REDACTED]" := by
  refine ⟨?_, ?_, rfl, rfl⟩
  · intro db pwv hdb hpw
    have hwf : databaseWellFormed data = true := by
      unfold databaseWellFormed
      rw [hdb]
    have hp := passwordRule_of_wellFormed data hwf
    have hdbp : dbPassword data = some pwv := by
      simp [dbPassword, hdb, hpw]
    rw [hdbp] at hp
    refine ⟨sslRule data ++ debugRule data ++
      (if !strContainsChar (pyStr pwv) '/' then [hardcodedPasswordFinding] else []) ++
      apiKeyRule data ++ fileSizeRule fs,
      (scan_for_issues_ok_iff data fs _).mpr ⟨_, hp, rfl⟩, ?_⟩
    cases hak : data.lookup "api_key" <;> cases fs <;>
      simp only [sslRule, debugRule, apiKeyRule, fileSizeRule, hak,
        List.filter_append] <;>
      (try split_ifs) <;>
      simp_all [sslDisabledFinding, debugModeEnabledFinding,
        hardcodedPasswordFinding, hardcodedApiKeyFinding,
        suspiciousFileSizeFinding]
  · intro l hdb h
    obtain ⟨pw, hpw, hl⟩ := (scan_for_issues_ok_iff data fs l).mp h
    have hp := passwordRule_of_wellFormed data
      (by unfold databaseWellFormed; rw [hdb])
    have hdbp : dbPassword data = none := by
      simp [dbPassword, hdb]
    rw [hdbp] at hp
    have hnil : pw = [] := by
      have h2 := hpw.symm.trans hp
      simpa using h2
    subst hnil
    subst hl
    cases hak : data.lookup "api_key" <;> cases fs <;>
      simp only [sslRule, debugRule, apiKeyRule, fileSizeRule, hak,
        List.filter_append] <;>
      (try split_ifs) <;>
      simp [sslDisabledFinding, debugModeEnabledFinding,
        hardcodedApiKeyFinding, suspiciousFileSizeFinding]

/-- Claim C3 witness: the record with the literal password `p@ssw0rd`
produces exactly the hardcoded-password finding. -/
theorem claim_C3_witness :
    ∃ l, scan_for_issues
        [("database", JVal.obj [("password", JVal.str "p@ssw0rd")])] none =
        Except.ok l ∧
      l.filter (fun f => f.type == "hardcoded_password") =
        (if strContainsChar (pyStr (JVal.str "p@ssw0rd")) '/' then []
         else [hardcodedPasswordFinding]) :=
  (claim_C3_theorem
    [("database", JVal.obj [("password", JVal.str "p@ssw0rd")])] none).1
    [("password", JVal.str "p@ssw0rd")] (JVal.str "p@ssw0rd") rfl rfl

/-- The file-size rule's Python truthiness guard is equivalent to the plain
threshold comparison: a size above 10 MiB is in particular nonzero. -/
theorem fileSizeRule_some (n : Int) :
    fileSizeRule (some n) =
      (if n > 10485760 then [suspiciousFileSizeFinding n] else []) := by
  simp only [fileSizeRule]
  by_cases h : n > 10485760
  · rw [if_pos (show n ≠ 0 ∧ n > 10 * 1024 * 1024 from ⟨by omega, by omega⟩),
      if_pos h]
  · rw [if_neg (show ¬(n ≠ 0 ∧ n > 10 * 1024 * 1024) by omega), if_neg h]

/-- Claim C4 (confirmed): the alert formatter produces an alert exactly when
the findings list is non-empty, and the empty record with no file size
evaluates to zero findings, which yield no alert. -/
theorem claim_C4_theorem :
    (∀ (b k : String) (vulns : List Finding) (now : String),
      (send_security_alert b k vulns now).isSome ↔ vulns ≠ []) ∧
    scan_for_issues [] none = Except.ok [] ∧
    (∀ (b k now : String), send_security_alert b k [] now = none) := by
  refine ⟨?_, rfl, fun b k now => rfl⟩
  intro b k vulns now
  unfold send_security_alert
  cases vulns <;> simp

/-- Claim C4 witness: the iff instantiated at a concrete non-empty findings
list. -/
theorem claim_C4_witness :
    (send_security_alert "bucket" "config.json" [sslDisabledFinding]
        "2024-01-01T00:00:00+00:00").isSome ↔
      [sslDisabledFinding] ≠ [] :=
  claim_C4_theorem.1 "bucket" "config.json" [sslDisabledFinding]
    "2024-01-01T00:00:00+00:00"

/-- Claim C5 (confirmed): any findings list the evaluator returns is the
concatenation, in rule-declaration order, of the five rules' independent
outputs — ssl, debug, password, api-key, file-size — each of which is empty
or the singleton of its own finding, so findings of an earlier-declared rule
always precede findings of a later-declared one, and each rule's
contribution depends only on its own field. -/
theorem claim_C5_theorem (data : Config) (fs : Option Int) (l : List Finding)
    (h : scan_for_issues data fs = Except.ok l) :
    ∃ pw, passwordRule data = Except.ok pw ∧
      l = sslRule data ++ debugRule data ++ pw ++ apiKeyRule data ++
        fileSizeRule fs ∧
      (sslRule data = [] ∨ sslRule data = [sslDisabledFinding]) ∧
      (debugRule data = [] ∨ debugRule data = [debugModeEnabledFinding]) ∧
      (pw = [] ∨ pw = [hardcodedPasswordFinding]) ∧
      (apiKeyRule data = [] ∨ apiKeyRule data = [hardcodedApiKeyFinding]) ∧
      (fileSizeRule fs = [] ∨
        ∃ n, fs = some n ∧ fileSizeRule fs = [suspiciousFileSizeFinding n]) := by
  obtain ⟨pw, hpw, hl⟩ := (scan_for_issues_ok_iff data fs l).mp h
  refine ⟨pw, hpw, hl, ?_, ?_,
    passwordRule_eq_nil_or_singleton data pw hpw, ?_, ?_⟩
  · unfold sslRule
    split_ifs <;> simp
  · unfold debugRule
    split_ifs <;> simp
  · cases hak : data.lookup "api_key" with
    | none => left; simp [apiKeyRule, hak]
    | some ak =>
        simp only [apiKeyRule, hak]
        split_ifs <;> simp
  · cases fs with
    | none => left; rfl
    | some n =>
        simp only [fileSizeRule]
        split_ifs with hc
        · right
          exact ⟨n, rfl, rfl⟩
        · left
          rfl

/-- Claim C5 witness: the decomposition instantiated on the empty record. -/
theorem claim_C5_witness :
    ∃ pw, passwordRule [] = Except.ok pw ∧
      ([] : List Finding) = sslRule [] ++ debugRule [] ++ pw ++ apiKeyRule [] ++
        fileSizeRule none ∧
      (sslRule [] = [] ∨ sslRule [] = [sslDisabledFinding]) ∧
      (debugRule [] = [] ∨ debugRule [] = [debugModeEnabledFinding]) ∧
      (pw = [] ∨ pw = [hardcodedPasswordFinding]) ∧
      (apiKeyRule [] = [] ∨ apiKeyRule [] = [hardcodedApiKeyFinding]) ∧
      (fileSizeRule none = [] ∨
        ∃ n, (none : Option Int) = some n ∧
          fileSizeRule none = [suspiciousFileSizeFinding n]) :=
  claim_C5_theorem [] none [] rfl

/-- Claim C6 (confirmed): the scenario record with SSL off, debug on and a
literal API key at file size 5000 yields exactly the three findings
ssl_disabled/HIGH, debug_mode_enabled/MEDIUM, hardcoded_api_key/HIGH in that
order, whose alert carries the severity summary CRITICAL 0, HIGH 2,
MEDIUM 1; and in general every produced alert's summary counts the findings
of each severity level, levels with no findings being present with count
0 as record fields. -/
theorem claim_C6_theorem :
    scan_for_issues [("ssl_enabled", JVal.bool false),
        ("debug_mode", JVal.bool true), ("api_key", JVal.str "abc123")]
        (some 5000) =
      Except.ok [sslDisabledFinding, debugModeEnabledFinding,
        hardcodedApiKeyFinding] ∧
    sslDisabledFinding.severity = "HIGH" ∧
    debugModeEnabledFinding.severity = "MEDIUM" ∧
    hardcodedApiKeyFinding.severity = "HIGH" ∧
    (∀ (b k now : String),
      (send_security_alert b k [sslDisabledFinding, debugModeEnabledFinding,
          hardcodedApiKeyFinding] now).map Alert.severity_summary =
        some ⟨0, 2, 1⟩) ∧
    (∀ (b k now : String) (vulns : List Finding) (a : Alert),
      send_security_alert b k vulns now = some a →
      a.severity_summary.CRITICAL =
          (vulns.filter (fun v => v.severity == "CRITICAL")).length ∧
        a.severity_summary.HIGH =
          (vulns.filter (fun v => v.severity == "HIGH")).length ∧
        a.severity_summary.MEDIUM =
          (vulns.filter (fun v => v.severity == "MEDIUM")).length) := by
  refine ⟨rfl, rfl, rfl, rfl, fun b k now => rfl, ?_⟩
  intro b k now vulns a h
  unfold send_security_alert at h
  by_cases he : vulns.isEmpty
  · rw [if_pos he] at h
    cases h
  · rw [if_neg he] at h
    have h2 := Option.some.inj h
    subst h2
    exact ⟨rfl, rfl, rfl⟩

/-- Claim C6 witness: the severity-summary law applied to a concrete
produced alert. -/
theorem claim_C6_witness :
    (Alert.mk "SECURITY_SCAN_ALERT" "t" "s3://b/k" 1 [sslDisabledFinding]
        ⟨0, 1, 0⟩).severity_summary.CRITICAL =
        ([sslDisabledFinding].filter
          (fun v => v.severity == "CRITICAL")).length ∧
      (Alert.mk "SECURITY_SCAN_ALERT" "t" "s3://b/k" 1 [sslDisabledFinding]
        ⟨0, 1, 0⟩).severity_summary.HIGH =
        ([sslDisabledFinding].filter
          (fun v => v.severity == "HIGH")).length ∧
      (Alert.mk "SECURITY_SCAN_ALERT" "t" "s3://b/k" 1 [sslDisabledFinding]
        ⟨0, 1, 0⟩).severity_summary.MEDIUM =
        ([sslDisabledFinding].filter
          (fun v => v.severity == "MEDIUM")).length :=
  claim_C6_theorem.2.2.2.2.2 "b" "k" "t" [sslDisabledFinding]
    (Alert.mk "SECURITY_SCAN_ALERT" "t" "s3://b/k" 1 [sslDisabledFinding]
      ⟨0, 1, 0⟩) rfl

/-- Claim C7 (confirmed): whenever evaluation returns a findings list, a
suspicious_file_size finding is present exactly when the provided file size
exceeds 10,485,760 bytes (then exactly one, with severity MEDIUM), an
absent file size never yields one, and size 11,000,000 on the empty record
yields exactly that one finding. -/
theorem claim_C7_theorem (data : Config) :
    (∀ (n : Int) (l : List Finding),
      scan_for_issues data (some n) = Except.ok l →
      l.filter (fun f => f.type == "suspicious_file_size") =
        (if n > 10485760 then [suspiciousFileSizeFinding n] else [])) ∧
    (∀ l, scan_for_issues data none = Except.ok l →
      l.filter (fun f => f.type == "suspicious_file_size") = []) ∧
    scan_for_issues [] (some 11000000) =
      Except.ok [suspiciousFileSizeFinding 11000000] ∧
    (∀ n, (suspiciousFileSizeFinding n).severity = "MEDIUM") := by
  refine ⟨?_, ?_, rfl, fun n => rfl⟩
  · intro n l h
    obtain ⟨pw, hpw, hl⟩ := (scan_for_issues_ok_iff data (some n) l).mp h
    subst hl
    rcases passwordRule_eq_nil_or_singleton data pw hpw with hp | hp <;>
      subst hp <;>
      cases hak : data.lookup "api_key" <;>
      simp only [sslRule, debugRule, apiKeyRule, fileSizeRule_some, hak,
        List.filter_append] <;>
      (try split_ifs) <;>
      simp [sslDisabledFinding, debugModeEnabledFinding,
        hardcodedPasswordFinding, hardcodedApiKeyFinding,
        suspiciousFileSizeFinding]
  · intro l h
    obtain ⟨pw, hpw, hl⟩ := (scan_for_issues_ok_iff data none l).mp h
    subst hl
    rcases passwordRule_eq_nil_or_singleton data pw hpw with hp | hp <;>
      subst hp <;>
      cases hak : data.lookup "api_key" <;>
      simp only [sslRule, debugRule, apiKeyRule, fileSizeRule, hak,
        List.filter_append] <;>
      (try split_ifs) <;>
      simp [sslDisabledFinding, debugModeEnabledFinding,
        hardcodedPasswordFinding, hardcodedApiKeyFinding,
        suspiciousFileSizeFinding]

/-- Claim C7 witness: the threshold law applied at file size 5000 on the
empty record. -/
theorem claim_C7_witness :
    ([] : List Finding).filter (fun f => f.type == "suspicious_file_size") =
      (if (5000 : Int) > 10485760 then [suspiciousFileSizeFinding 5000]
       else []) :=
  (claim_C7_theorem []).1 5000 [] rfl

/-- A sample upload notification for a non-JSON object key, shaped like the
S3 event structure the handler consumes. -/
def sampleEventTxt : JVal :=
  JVal.obj [("Records", JVal.arr [JVal.obj [("s3", JVal.obj
    [("bucket", JVal.obj [("name", JVal.str "my-bucket")]),
     ("object", JVal.obj [("key", JVal.str "notes.txt")])])]])]

/-- A sample upload notification for a JSON object key. -/
def sampleEventJson : JVal :=
  JVal.obj [("Records", JVal.arr [JVal.obj [("s3", JVal.obj
    [("bucket", JVal.obj [("name", JVal.str "my-bucket")]),
     ("object", JVal.obj [("key", JVal.str "config.json")])])]])]

/-- Claim C8 (confirmed): when the event's object key does not end in
`.json`, the orchestrator returns the 200 skip response, and its result does
not depend on the store or the parser at all — the object is never
retrieved. -/
theorem claim_C8_theorem
    (store store2 : JVal → JVal → Except String (String × Int))
    (jloads jloads2 : String → Except String Config) (now : String)
    (event records record0 s3val bucketval nameval objectval keyval : JVal)
    (h1 : pyGetItem event "Records" = Except.ok records)
    (h2 : pyIndexNat records 0 = Except.ok record0)
    (h3 : pyGetItem record0 "s3" = Except.ok s3val)
    (h4 : pyGetItem s3val "bucket" = Except.ok bucketval)
    (h5 : pyGetItem bucketval "name" = Except.ok nameval)
    (h6 : pyGetItem s3val "object" = Except.ok objectval)
    (h7 : pyGetItem objectval "key" = Except.ok keyval)
    (h8 : pyEndsWith keyval ".json" = Except.ok false) :
    lambda_handler store jloads now event = ⟨200, "Non-JSON file skipped"⟩ ∧
    lambda_handler store jloads now event =
      lambda_handler store2 jloads2 now event := by
  have hrun : ∀ (st : JVal → JVal → Except String (String × Int))
      (jl : String → Except String Config),
      lambda_handler st jl now event = ⟨200, "Non-JSON file skipped"⟩ := by
    intro st jl
    unfold lambda_handler
    simp [h1, h2, h3, h4, h5, h6, h7, h8, exceptBind_ok]
  exact ⟨hrun store jloads,
    (hrun store jloads).trans (hrun store2 jloads2).symm⟩

/-- Claim C8 witness: the key `notes.txt` is skipped with status 200, with
identical behaviour under a failing store and a successful one. -/
theorem claim_C8_witness :
    lambda_handler (fun _ _ => Except.error "NoSuchKey")
        (fun _ => Except.error "parse failure") "t" sampleEventTxt =
      ⟨200, "Non-JSON file skipped"⟩ ∧
    lambda_handler (fun _ _ => Except.error "NoSuchKey")
        (fun _ => Except.error "parse failure") "t" sampleEventTxt =
      lambda_handler (fun _ _ => Except.ok ("\x7b\x7d", 2))
        (fun _ => Except.ok []) "t" sampleEventTxt :=
  claim_C8_theorem _ _ _ _ "t" sampleEventTxt _ _ _ _ _ _ _
    rfl rfl rfl rfl rfl rfl rfl rfl

/-- Claim C9 (confirmed): for a well-formed event naming a `.json` key, a
store failure, a parse failure, or an evaluation failure each produce a 500
response whose body is the error text appended to `Error: ` (so the message
embeds the underlying failure reason), while a successful scan produces the
200 success response; `lambda_handler` is a total function, so no exception
propagates out of it. -/
theorem claim_C9_theorem
    (store : JVal → JVal → Except String (String × Int))
    (jloads : String → Except String Config) (now : String)
    (event records record0 s3val bucketval nameval objectval keyval : JVal)
    (h1 : pyGetItem event "Records" = Except.ok records)
    (h2 : pyIndexNat records 0 = Except.ok record0)
    (h3 : pyGetItem record0 "s3" = Except.ok s3val)
    (h4 : pyGetItem s3val "bucket" = Except.ok bucketval)
    (h5 : pyGetItem bucketval "name" = Except.ok nameval)
    (h6 : pyGetItem s3val "object" = Except.ok objectval)
    (h7 : pyGetItem objectval "key" = Except.ok keyval)
    (h8 : pyEndsWith keyval ".json" = Except.ok true) :
    (∀ e, store nameval keyval = Except.error e →
      lambda_handler store jloads now event = ⟨500, "Error: " ++ e⟩) ∧
    (∀ c n e, store nameval keyval = Except.ok (c, n) →
      jloads c = Except.error e →
      lambda_handler store jloads now event = ⟨500, "Error: " ++ e⟩) ∧
    (∀ c n data e, store nameval keyval = Except.ok (c, n) →
      jloads c = Except.ok data →
      scan_for_issues data (some n) = Except.error e →
      lambda_handler store jloads now event = ⟨500, "Error: " ++ e⟩) ∧
    (∀ c n data l, store nameval keyval = Except.ok (c, n) →
      jloads c = Except.ok data →
      scan_for_issues data (some n) = Except.ok l →
      lambda_handler store jloads now event =
        ⟨200, "File processed successfully. Found " ++ toString l.length ++
          " vulnerabilities."⟩) := by
  refine ⟨?_, ?_, ?_, ?_⟩
  · intro e hst
    unfold lambda_handler
    simp [h1, h2, h3, h4, h5, h6, h7, h8, hst, exceptBind_ok,
      exceptBind_error]
  · intro c n e hst hjl
    unfold lambda_handler
    simp [h1, h2, h3, h4, h5, h6, h7, h8, hst, hjl, exceptBind_ok,
      exceptBind_error]
  · intro c n data e hst hjl hscan
    unfold lambda_handler
    simp [h1, h2, h3, h4, h5, h6, h7, h8, hst, hjl, hscan, exceptBind_ok,
      exceptBind_error]
  · intro c n data l hst hjl hscan
    unfold lambda_handler
    simp [h1, h2, h3, h4, h5, h6, h7, h8, hst, hjl, hscan, exceptBind_ok,
      exceptBind_error]

/-- Claim C9 witness: a store that raises `object not found` yields the 500
response embedding that reason. -/
theorem claim_C9_witness :
    lambda_handler (fun _ _ => Except.error "An error occurred (NoSuchKey)")
        (fun _ => Except.ok []) "t" sampleEventJson =
      ⟨500, "Error: " ++ "An error occurred (NoSuchKey)"⟩ :=
  (claim_C9_theorem _ _ "t" sampleEventJson _ _ _ _ _ _ _
    rfl rfl rfl rfl rfl rfl rfl rfl).1 "An error occurred (NoSuchKey)" rfl

/-- Claim C10, counterexample: the records `{"database": 5}` and `{}` agree
on the `ssl_enabled`, `debug_mode` and `api_key` keys and on the
`database.password` entry (absent in both), yet evaluate differently: the
first raises a `TypeError` while the second returns no findings.  The
evaluator's behaviour therefore also depends on the shape of the `database`
value itself, not only on the entries the claim lists. -/
theorem claim_C10_counterexample :
    List.lookup "ssl_enabled" ([("database", JVal.int 5)] : Config) =
      List.lookup "ssl_enabled" ([] : Config) ∧
    List.lookup "debug_mode" ([("database", JVal.int 5)] : Config) =
      List.lookup "debug_mode" ([] : Config) ∧
    List.lookup "api_key" ([("database", JVal.int 5)] : Config) =
      List.lookup "api_key" ([] : Config) ∧
    dbPassword [("database", JVal.int 5)] = dbPassword [] ∧
    scan_for_issues [("database", JVal.int 5)] none ≠
      scan_for_issues [] none :=
  ⟨rfl, rfl, rfl, rfl, fun h => Except.noConfusion h⟩

/-- Claim C10 (amended): the evaluator is a deterministic function whose
output depends only on the `ssl_enabled`, `debug_mode` and `api_key` values,
the `database.password` entry and the file size, provided the `database`
value of each record, when present, is a mapping; two such records agreeing
on those entries evaluate to identical findings lists whatever other keys
they hold.  (Without the mapping proviso the statement fails, as the
counterexample shows.) -/
theorem claim_C10_theorem (d1 d2 : Config) (fs : Option Int)
    (hw1 : databaseWellFormed d1 = true) (hw2 : databaseWellFormed d2 = true)
    (hssl : d1.lookup "ssl_enabled" = d2.lookup "ssl_enabled")
    (hdbg : d1.lookup "debug_mode" = d2.lookup "debug_mode")
    (hapi : d1.lookup "api_key" = d2.lookup "api_key")
    (hpw : dbPassword d1 = dbPassword d2) :
    scan_for_issues d1 fs = scan_for_issues d2 fs := by
  rw [scan_for_issues_decomp, scan_for_issues_decomp,
    passwordRule_of_wellFormed d1 hw1, passwordRule_of_wellFormed d2 hw2,
    hpw]
  unfold sslRule debugRule apiKeyRule
  rw [hssl, hdbg, hapi]

/-- Claim C10 witness: a record with only an unrelated extra key evaluates
exactly like the empty record. -/
theorem claim_C10_witness :
    scan_for_issues [("extra", JVal.str "x")] none =
      scan_for_issues [] none :=
  claim_C10_theorem [("extra", JVal.str "x")] [] none rfl rfl rfl rfl rfl rfl
